import Mathlib

/-!
Verification of the conversation-graph layout engine of the
`twitter_reply_cluster` repository.

The layout engine lives in `src/static/script.js`, function
`initializeD3Graph`.  It receives the backend's `d3_graph_data`
(`{nodes, links}`), pins the main post at the viewport midpoint via
`fx`/`fy`, pins every quote tweet's `fx` to a vertical band determined by
its `qt_level`, and then builds a d3 force simulation whose link distance,
link strength, charge strength, `forceX`/`forceY` targets and strengths,
and collision radius are given by the arrow functions at lines 431-501.

Numbers are embedded as rationals (`ℚ`); `Math.log2` in `getNodeRadius`
is embedded as `Real.logb 2`.  Each backend node carries its tweet kind in
the `type` / `tweet_type` attributes (set to the same classification
string `main_post` / `reply` / `quote_tweet` by the backend graph
builder, which is specified in §3 of the spec as the single field
`kind`); the embedding uses one `kind` field read wherever the source
reads either attribute.
-/

namespace TwitterGraph

/-- A raw JSON value as found in a node's `qt_level` field: a finite
number, `NaN`, `undefined`/missing, or some non-numeric value. -/
inductive JSVal where
  | num (q : ℚ)
  | nan
  | undef
  | other
deriving DecidableEq

/-- `typeof v === 'number' && !isNaN(v)`: the condition under which
`script.js` line 383 keeps a `qt_level` value. -/
def JSVal.isFiniteNumber : JSVal → Bool
  | .num _ => true
  | _ => false

/-- A node of the backend's `d3_graph_data.nodes` array, restricted to the
fields the layout engine reads. -/
structure RawNode where
  id : String
  kind : String
  qt_level : JSVal
  likes : ℕ
deriving DecidableEq

/-- A link of `d3_graph_data.links`. -/
structure RawLink where
  source : String
  target : String
  relationship : String
deriving DecidableEq

/-- The `d3_graph_data` object handed to `initializeD3Graph`; `nodes` and
`links` may be absent (`undefined`), which the guard at line 354 checks. -/
structure GraphData where
  nodes : Option (List RawNode)
  links : Option (List RawLink)
deriving DecidableEq

/-- A node during simulation: the raw fields plus d3's position, velocity
and pinning (`fx`/`fy`) state. -/
structure SimNode where
  id : String
  kind : String
  qt_level : ℚ
  likes : ℕ
  x : ℚ
  y : ℚ
  vx : ℚ
  vy : ℚ
  fx : Option ℚ
  fy : Option ℚ
deriving DecidableEq

/-- Line 383: `typeof node.qt_level !== 'number' || isNaN(node.qt_level)`
replaces the value by `0`; otherwise the number is kept. -/
def normalizeQtLevel : JSVal → ℚ
  | .num q => q
  | _ => 0

/-- JavaScript `x || 1` for a (non-`NaN`) number `x`: `0` is falsy. -/
def jsOrOne (x : ℚ) : ℚ := if x = 0 then 1 else x

/-- Line 390: `Math.max(1, node.qt_level || 1)` — the effective band level
of a quote tweet. -/
def qtEffLevel (x : ℚ) : ℚ := max 1 (jsOrOne x)

/-- Lines 391-396: the `fx` value pinned onto a quote tweet at effective
level `level`: `width * 2.0` for level 1, else
`(width * 2.0) + ((level - 1) * width * 2.0)`. -/
def qtFx (width level : ℚ) : ℚ :=
  if level = 1 then width * 2 else width * 2 + (level - 1) * (width * 2)

/-- Line 367: `graphData.nodes.find(n => n.tweet_type === 'main_post')?.id`. -/
def mainPostId (nodes : List RawNode) : Option String :=
  (nodes.find? (fun n => n.kind == "main_post")).map (fun n => n.id)

/-- The per-node body of the `graphData.nodes.forEach` loop at lines
370-400: pin the main post at `(width/2, height/2)`, normalize
`qt_level`, then pin every quote tweet's `fx` to its band.  Raw nodes
carry no `x`/`y`/`vx`/`vy` (d3 initializes them later), embedded as `0`
until `initNodes` runs. -/
def setupNode (width height : ℚ) (mpid : Option String) (r : RawNode) : SimNode :=
  let fx0 : Option ℚ := if some r.id = mpid then some (width / 2) else none
  let fy0 : Option ℚ := if some r.id = mpid then some (height / 2) else none
  let lvl : ℚ := normalizeQtLevel r.qt_level
  let fx1 : Option ℚ :=
    if r.kind = "quote_tweet" then some (qtFx width (qtEffLevel lvl)) else fx0
  { id := r.id, kind := r.kind, qt_level := lvl, likes := r.likes,
    x := 0, y := 0, vx := 0, vy := 0, fx := fx1, fy := fy0 }

/-- The whole node-preparation loop of `initializeD3Graph`. -/
def setupNodes (width height : ℚ) (nodes : List RawNode) : List SimNode :=
  nodes.map (setupNode width height (mainPostId nodes))

/-- Result of `initializeD3Graph`: either the early-return error path
(lines 354-361) or a constructed simulation over the prepared nodes and
the links array passed through unchanged to `d3.forceLink`. -/
inductive InitResult where
  | error (msg : String)
  | engine (nodes : List SimNode) (links : List RawLink)
deriving DecidableEq

def InitResult.isEngine : InitResult → Bool
  | .engine _ _ => true
  | .error _ => false

/-- Lines 354-400 of `initializeD3Graph`: the guard
`!graphData || !graphData.nodes || !graphData.links` appends an error and
returns; otherwise the node-preparation loop runs and the simulation is
constructed (an empty array is truthy in JavaScript, so only an absent
`nodes`/`links` field fails the guard). -/
def initializeD3Graph (width height : ℚ) (g : Option GraphData) : InitResult :=
  match g with
  | none => .error "Error: Graph data is incomplete."
  | some gd =>
    match gd.nodes, gd.links with
    | some ns, some ls => .engine (setupNodes width height ns) ls
    | _, _ => .error "Error: Graph data is incomplete."

/-- Lines 434-447: `forceLink` rest length from the endpoint kinds. -/
def linkDistance (sourceKind targetKind : String) : ℚ :=
  if sourceKind = "main_post" then
    (if targetKind = "quote_tweet" then 180 else 120)
  else if sourceKind = "quote_tweet" then
    (if targetKind = "reply" then 70
     else if targetKind = "quote_tweet" then 150
     else 80)
  else 80

/-- Lines 448-454: `forceLink` spring strength — `0.7` when either
endpoint is the main post, else `0.4`. -/
def linkStrength (sourceKind targetKind : String) : ℚ :=
  if sourceKind = "main_post" ∨ targetKind = "main_post" then 7/10 else 2/5

/-- Lines 456-461: `forceManyBody` charge strength by node kind. -/
def chargeStrength (kind : String) : ℚ :=
  if kind = "main_post" then -1000
  else if kind = "quote_tweet" then -400
  else if kind = "reply" then -100
  else -300

/-- Lines 462-477: the `forceX` target: honor `fx` when set; a reply with
a truthy positive `qt_level` targets its quote band, all other unpinned
nodes target `width / 2`. -/
def forceXTarget (width : ℚ) (n : SimNode) : ℚ :=
  match n.fx with
  | some v => v
  | none =>
    if n.kind = "reply" then
      if n.qt_level ≠ 0 ∧ 0 < n.qt_level then
        width * 2 + (n.qt_level - 1) * (width * 2)
      else width / 2
    else width / 2

/-- Lines 478-492: the `forceX` strength. -/
def forceXStrength (n : SimNode) : ℚ :=
  match n.fx with
  | some _ => 1/100
  | none =>
    if n.kind = "reply" then
      (if n.qt_level ≠ 0 ∧ 0 < n.qt_level then 1 else 3/10)
    else 1/10

/-- Lines 493-496: the `forceY` target (`height / 2` on both branches). -/
def forceYTarget (height : ℚ) (n : SimNode) : ℚ :=
  if n.kind = "main_post" then height / 2 else height / 2

/-- Lines 497-500: the `forceY` strength. -/
def forceYStrength (n : SimNode) : ℚ :=
  if n.kind = "main_post" then 1 else 1/20

/-- Lines 556-564: `getNodeRadius(likes)` — base radius 5, saturating
`Math.log2(likes + 1) * 1.5` growth, clamped at 20. -/
noncomputable def getNodeRadius (likes : ℕ) : ℝ :=
  min (5 + Real.logb 2 ((likes : ℝ) + 1) * 1.5) 20

/-- Line 501: the collision radius handed to `d3.forceCollide`. -/
noncomputable def collideRadius (likes : ℕ) : ℝ :=
  getNodeRadius likes + 8

/-!  ## The d3 tick

`d3.forceSimulation` advances by discrete ticks: each tick applies every
registered force (all five forces of `initializeD3Graph` write only the
nodes' velocities `vx`/`vy`, as functions of the whole pre-tick node
array), then performs the velocity-Verlet position update, which honors
`fx`/`fy` as hard pins.  The force pass is embedded as an arbitrary
velocity assignment `vel`, so theorems quantified over `vel` hold for the
configured forces regardless of their parameters. -/

/-- d3's per-node end-of-tick update: unpinned coordinates integrate the
decayed velocity; pinned coordinates are reset to `fx`/`fy` with zero
velocity. -/
def positionUpdate (decay : ℚ) (n : SimNode) : SimNode :=
  let px : ℚ × ℚ := match n.fx with
    | some v => (v, 0)
    | none => (n.x + n.vx * decay, n.vx * decay)
  let py : ℚ × ℚ := match n.fy with
    | some v => (v, 0)
    | none => (n.y + n.vy * decay, n.vy * decay)
  { n with x := px.1, vx := px.2, y := py.1, vy := py.2 }

/-- One force pass: every node's velocity is rewritten as a function of
the whole pre-tick node list (covering the summed link, charge, x, y and
collision forces, whatever their parameters). -/
def applyForces (vel : List SimNode → SimNode → ℚ × ℚ) (ns : List SimNode) : List SimNode :=
  ns.map (fun n => { n with vx := (vel ns n).1, vy := (vel ns n).2 })

/-- One full simulation tick: forces, then position update. -/
def tick (decay : ℚ) (vel : List SimNode → SimNode → ℚ × ℚ) (ns : List SimNode) :
    List SimNode :=
  (applyForces vel ns).map (positionUpdate decay)

/-- A run of the simulation: one tick per element of `vels`. -/
def runSim (decay : ℚ) (vels : List (List SimNode → SimNode → ℚ × ℚ))
    (ns : List SimNode) : List SimNode :=
  vels.foldl (fun acc vel => tick decay vel acc) ns

/-- d3's node initialization: a node with `fx`/`fy` set starts there;
otherwise it receives the phyllotaxis placement (embedded as the
arbitrary per-index placement `place`, since the spiral uses `cos`/`sin`). -/
def initNodes (place : ℕ → ℚ × ℚ) : ℕ → List SimNode → List SimNode
  | _, [] => []
  | i, n :: ns =>
      { n with x := n.fx.getD (place i).1, y := n.fy.getD (place i).2 }
        :: initNodes place (i + 1) ns

/-!  ## The spec's engine handle

`src/` drives the simulation through d3's internal scheduler; the caller
never queries a `done` flag. -/

/-- Modelled from the spec: the engine API
`createEngine(graph, params) -> EngineHandle` with `EngineHandle.tick() ->
{done}` and the parameters `maxTicks` / `stabilizationThreshold` (spec
§4.2) has no counterpart under `src/` — the repository's layout code
hands the node array to `d3.forceSimulation`, which schedules ticks
internally.  The parameter record follows the spec's words. -/
structure EngineParams where
  maxTicks : ℕ
  stabilizationThreshold : ℚ

/-- Modelled from the spec: the engine's mutable state — the node array
(spec §3 `position`/`velocity`) plus the number of `tick()` calls made. -/
structure EngineState where
  nodes : List SimNode
  ticksDone : ℕ

/-- Modelled from the spec: "aggregate kinetic energy (sum of squared
velocities)" (spec §4.2 Termination). -/
def kineticEnergy (ns : List SimNode) : ℚ :=
  (ns.map (fun n => n.vx * n.vx + n.vy * n.vy)).sum

/-- Modelled from the spec: one `tick()` call — one full simulation step
(the five summed forces abstracted as `vel`, then the position/velocity
update), reporting `done = true` once the aggregate kinetic energy drops
below `stabilizationThreshold` or once `maxTicks` is reached, whichever
comes first. -/
def engineTick (p : EngineParams) (decay : ℚ)
    (vel : List SimNode → SimNode → ℚ × ℚ) (s : EngineState) :
    EngineState × Bool :=
  let ns := tick decay vel s.nodes
  (⟨ns, s.ticksDone + 1⟩,
    decide (kineticEnergy ns < p.stabilizationThreshold)
      || decide (p.maxTicks ≤ s.ticksDone + 1))

/-- Whether some call in a run of `k` consecutive `tick()` calls reports
`done = true`. -/
def doneWithin (p : EngineParams) (decay : ℚ)
    (vel : List SimNode → SimNode → ℚ × ℚ) : ℕ → EngineState → Bool
  | 0, _ => false
  | k + 1, s =>
      (engineTick p decay vel s).2
        || doneWithin p decay vel k (engineTick p decay vel s).1

/-- Invariant used for the root-pinning theorem: a node recognized as the
main post (its `kind` is `main_post` and its `id` the one `find` picked)
is pinned at `(a, b)` — `fx`/`fy` hold the anchor and the position equals
it. -/
def PinnedInv (a b : ℚ) (rid : String) (n : SimNode) : Prop :=
  n.kind = "main_post" → n.id = rid →
    n.fx = some a ∧ n.fy = some b ∧ n.x = a ∧ n.y = b

/-!  ## Theorems -/

/-- For `1 ≤ L`, the effective quote-band level is `L` itself. -/
theorem qtEffLevel_of_one_le {L : ℚ} (h1 : 1 ≤ L) : qtEffLevel L = L := by
  have hne : L ≠ 0 := by intro h; rw [h] at h1; norm_num at h1
  unfold qtEffLevel jsOrOne
  rw [if_neg hne]
  exact max_eq_right h1

/-- The band `fx` formula collapses to `level * (width * 2)` on both of
its branches. -/
theorem qtFx_eq (width L : ℚ) : qtFx width L = L * (width * 2) := by
  unfold qtFx
  by_cases hL1 : L = 1
  · rw [if_pos hL1, hL1]; ring
  · rw [if_neg hL1]; ring

/-- **C2, counterexample.**  In the layout built from a root plus one
level-1 quote with `viewportWidth = 1000`, the quote's assigned band
x-coordinate is `2000 = 1 * bandWidth` (with `bandWidth = width * 2`),
which differs from the claimed `midpointX + 1 * bandWidth = 2500`. -/
theorem quote_band_offset_counterexample :
    ((setupNodes 1000 800
        [⟨"m", "main_post", JSVal.num 0, 0⟩, ⟨"q1", "quote_tweet", JSVal.num 1, 0⟩]).map
      (fun n => n.fx)) = [some 500, some 2000]
    ∧ (1000 / 2 + 1 * (1000 * 2) : ℚ) = 2500
    ∧ (2000 : ℚ) ≠ 2500 := by
  refine ⟨?_, by norm_num, by norm_num⟩
  norm_num [setupNodes, setupNode, mainPostId, List.find?, normalizeQtLevel,
    qtEffLevel, jsOrOne, qtFx]
  decide

/-- **C2** (amended).  For every quote node at level `L ≥ 1`, the
horizontal x-coordinate pinned onto it is `L * bandWidth` where
`bandWidth = viewportWidth * 2` — with no `midpointX` summand. -/
theorem quote_band_target_x (width height : ℚ) (mpid : Option String)
    (id : String) (likes : ℕ) (L : ℚ) (h1 : 1 ≤ L) :
    (setupNode width height mpid ⟨id, "quote_tweet", JSVal.num L, likes⟩).fx
      = some (L * (width * 2)) := by
  simp only [setupNode, normalizeQtLevel]
  rw [if_pos trivial, qtEffLevel_of_one_le h1, qtFx_eq]

/-- Witness for `quote_band_target_x` at `width = 1000`, `L = 3`. -/
theorem quote_band_target_x_witness :
    (1 : ℚ) ≤ 3
    ∧ (setupNode 1000 800 (some "m") ⟨"q", "quote_tweet", JSVal.num 3, 7⟩).fx
        = some 6000 := by
  refine ⟨by norm_num, ?_⟩
  have h := quote_band_target_x 1000 800 (some "m") "q" 7 3 (by norm_num)
  rw [h]; norm_num

/-- **C3, counterexample.**  In a constructed layout of a root plus one
level-1 quote, the quote node — a non-root node — has the fixed
x-coordinate `fx = 2000`: it is not position-free. -/
theorem quote_pinned_counterexample :
    ((setupNodes 1000 800
        [⟨"m", "main_post", JSVal.num 0, 3⟩, ⟨"q1", "quote_tweet", JSVal.num 1, 5⟩]).map
      (fun n => n.fx)) = [some 500, some 2000]
    ∧ (some (2000 : ℚ)) ≠ none := by
  refine ⟨?_, by simp⟩
  norm_num [setupNodes, setupNode, mainPostId, List.find?, normalizeQtLevel,
    qtEffLevel, jsOrOne, qtFx]
  decide

/-- **C3** (amended).  After node preparation, a node is free in x
(`fx = none`) exactly when it is neither a quote tweet nor the main-post
node, and free in y (`fy = none`) exactly when it is not the main-post
node: the root is hard-pinned in both coordinates, every quote node is
hard-pinned in x onto its band, and only replies (and other non-quote,
non-root kinds) are fully position-free. -/
theorem pinned_nodes_characterization (width height : ℚ) (mpid : Option String)
    (r : RawNode) :
    ((setupNode width height mpid r).fx = none
        ↔ (r.kind ≠ "quote_tweet" ∧ some r.id ≠ mpid))
    ∧ ((setupNode width height mpid r).fy = none ↔ some r.id ≠ mpid) := by
  simp only [setupNode]
  constructor
  · by_cases hq : r.kind = "quote_tweet"
    · simp [hq]
    · by_cases hid : some r.id = mpid <;> simp [hq, hid]
  · by_cases hid : some r.id = mpid <;> simp [hid]

/-- **C4, counterexample.**  The root-touching edge `main_post → reply`
has rest length `120`, strictly shorter than the `150` of the
non-root edge `quote_tweet → quote_tweet`: a root edge's rest length is
not always strictly longer. -/
theorem root_edge_rest_length_counterexample :
    linkDistance "main_post" "reply" = 120
    ∧ linkDistance "quote_tweet" "quote_tweet" = 150
    ∧ ¬ (linkDistance "quote_tweet" "quote_tweet"
          < linkDistance "main_post" "reply") := by
  refine ⟨by decide, by decide, by decide⟩

/-- **C4** (amended).  For every pair of edges where the first touches the
root and the second connects two non-root nodes, the first edge's spring
strength (`0.7`) is strictly higher than the second's (`0.4`); rest
lengths, by contrast, follow the per-kind table and a root-touching edge
can be strictly shorter than a non-root edge. -/
theorem root_edge_strength_higher (s₁ t₁ s₂ t₂ : String)
    (h₁ : s₁ = "main_post" ∨ t₁ = "main_post")
    (h₂ : ¬ (s₂ = "main_post" ∨ t₂ = "main_post")) :
    linkStrength s₂ t₂ < linkStrength s₁ t₁ := by
  unfold linkStrength
  rw [if_pos h₁, if_neg h₂]
  norm_num

/-- Witness for `root_edge_strength_higher` on a `main_post → reply` edge
versus a `quote_tweet → quote_tweet` edge. -/
theorem root_edge_strength_higher_witness :
    linkStrength "quote_tweet" "quote_tweet" < linkStrength "main_post" "reply" :=
  root_edge_strength_higher "main_post" "reply" "quote_tweet" "quote_tweet"
    (Or.inl rfl) (by decide)

/-- **C5.**  The repulsion (charge) coefficients are strictly ordered in
magnitude — root (`-1000`) repels most strongly, quote tweets (`-400`)
moderately, replies (`-100`) weakly — and all three are repulsive
(negative strength). -/
theorem charge_magnitude_order :
    |chargeStrength "quote_tweet"| < |chargeStrength "main_post"|
    ∧ |chargeStrength "reply"| < |chargeStrength "quote_tweet"|
    ∧ chargeStrength "main_post" < 0
    ∧ chargeStrength "quote_tweet" < 0
    ∧ chargeStrength "reply" < 0 := by
  refine ⟨by decide, by decide, by decide, by decide, by decide⟩

/-- **C8, counterexample.**  A graph with two nodes both marked
`main_post` and a link whose target id `"ghost"` appears in no node
passes the construction guard: `initializeD3Graph` builds an engine
instead of returning an error. -/
theorem malformed_graph_accepted_counterexample :
    (initializeD3Graph 1000 800
        (some ⟨some [⟨"m", "main_post", JSVal.num 0, 0⟩,
                     ⟨"m2", "main_post", JSVal.num 0, 0⟩],
               some [⟨"m", "ghost", "replies"⟩]⟩)).isEngine = true := by
  decide

/-- **C8** (amended).  Engine construction fails only on structurally
incomplete data — an absent `graphData`, `nodes`, or `links` field; for
any node and link arrays (whatever their root count, and with every link
passed through unchanged, dangling or not) an engine is returned. -/
theorem init_rejects_only_incomplete_data (width height : ℚ)
    (ns : List RawNode) (ls : List RawLink) :
    initializeD3Graph width height (some ⟨some ns, some ls⟩)
        = .engine (setupNodes width height ns) ls
    ∧ (initializeD3Graph width height none).isEngine = false
    ∧ ∀ gd : GraphData, gd.nodes = none ∨ gd.links = none →
        (initializeD3Graph width height (some gd)).isEngine = false := by
  refine ⟨rfl, rfl, ?_⟩
  intro gd h
  rcases gd with ⟨n?, l?⟩
  rcases h with h | h <;> subst h
  · rfl
  · cases n? <;> rfl

/-- Witness for `init_rejects_only_incomplete_data` on a one-node,
zero-link graph and a `links`-less graph data object. -/
theorem init_rejects_only_incomplete_data_witness :
    initializeD3Graph 1000 800
        (some ⟨some [⟨"m", "main_post", JSVal.num 0, 0⟩], some []⟩)
      = .engine (setupNodes 1000 800 [⟨"m", "main_post", JSVal.num 0, 0⟩]) []
    ∧ (initializeD3Graph 1000 800
        (some ⟨some [⟨"m", "main_post", JSVal.num 0, 0⟩], none⟩)).isEngine
        = false := by
  refine ⟨(init_rejects_only_incomplete_data 1000 800
      [⟨"m", "main_post", JSVal.num 0, 0⟩] []).1, ?_⟩
  exact (init_rejects_only_incomplete_data 1000 800 [] []).2.2
    ⟨some [⟨"m", "main_post", JSVal.num 0, 0⟩], none⟩ (Or.inr rfl)

/-- **C10.**  Before the simulation starts: (a) any node whose `qt_level`
is missing, non-numeric, or `NaN` has it replaced by `0`; (b) every
quote node's effective band level `max(1, qt_level || 1)` is at least
`1`; and (c) a quote node with `qt_level = 0` is pinned to the level-1
band `width * 2`, never to the level-0 (root-band) target. -/
theorem qt_level_normalization_and_min_band :
    (∀ (width height : ℚ) (mpid : Option String) (r : RawNode),
        r.qt_level.isFiniteNumber = false
          → (setupNode width height mpid r).qt_level = 0)
    ∧ (∀ x : ℚ, 1 ≤ qtEffLevel x)
    ∧ (∀ (width height : ℚ) (mpid : Option String) (id : String) (likes : ℕ),
        (setupNode width height mpid ⟨id, "quote_tweet", JSVal.num 0, likes⟩).fx
          = some (width * 2)) := by
  refine ⟨?_, ?_, ?_⟩
  · intro width height mpid r h
    have hz : normalizeQtLevel r.qt_level = 0 := by
      cases hv : r.qt_level with
      | num q => rw [hv] at h; simp [JSVal.isFiniteNumber] at h
      | nan => simp [normalizeQtLevel]
      | undef => simp [normalizeQtLevel]
      | other => simp [normalizeQtLevel]
    simp [setupNode, hz]
  · intro x
    exact le_max_left 1 (jsOrOne x)
  · intro width height mpid id likes
    simp only [setupNode, normalizeQtLevel]
    rw [if_pos trivial]
    have h1 : qtEffLevel 0 = 1 := by unfold qtEffLevel jsOrOne; norm_num
    rw [h1, qtFx_eq]
    norm_num

/-- Witness for `qt_level_normalization_and_min_band`: a node with a
`NaN` level is normalized to `0`, and a level-0 quote lands on the
level-1 band. -/
theorem qt_level_normalization_and_min_band_witness :
    ((⟨"r", "reply", JSVal.nan, 2⟩ : RawNode).qt_level.isFiniteNumber = false)
    ∧ (setupNode 1000 800 (some "m") ⟨"r", "reply", JSVal.nan, 2⟩).qt_level = 0
    ∧ (setupNode 1000 800 (some "m")
        ⟨"q0", "quote_tweet", JSVal.num 0, 4⟩).fx = some 2000 := by
  refine ⟨by decide, ?_, ?_⟩
  · exact qt_level_normalization_and_min_band.1 1000 800 (some "m")
      ⟨"r", "reply", JSVal.nan, 2⟩ (by decide)
  · have h := qt_level_normalization_and_min_band.2.2 1000 800 (some "m") "q0" 4
    rw [h]; norm_num

/-- **C6.**  The node radius is monotonically non-decreasing in the
engagement count, clamped to `[5, 20]`, and for engagement counts `0`
versus `10000` the high-engagement radius (`20`, at the clamp) is
strictly larger than the low-engagement one (`5`). -/
theorem node_radius_monotone_clamped :
    (∀ a b : ℕ, a ≤ b → getNodeRadius a ≤ getNodeRadius b)
    ∧ (∀ l : ℕ, 5 ≤ getNodeRadius l ∧ getNodeRadius l ≤ 20)
    ∧ getNodeRadius 0 < getNodeRadius 10000 := by
  refine ⟨?_, ?_, ?_⟩
  · intro a b hab
    unfold getNodeRadius
    apply min_le_min _ le_rfl
    have h1 : ((a : ℝ) + 1) ≤ (b : ℝ) + 1 := by
      have : (a : ℝ) ≤ (b : ℝ) := Nat.cast_le.mpr hab
      linarith
    have h2 : (0 : ℝ) < (a : ℝ) + 1 := by positivity
    have h3 := Real.logb_le_logb_of_le (b := 2) (by norm_num) h2 h1
    linarith
  · intro l
    constructor
    · apply le_min _ (by norm_num)
      have h0 : (1 : ℝ) ≤ (l : ℝ) + 1 := by
        have : (0 : ℝ) ≤ (l : ℝ) := Nat.cast_nonneg l
        linarith
      have := Real.logb_nonneg (b := 2) (by norm_num) h0
      linarith
    · exact min_le_right _ _
  · have h0 : getNodeRadius 0 = 5 := by
      unfold getNodeRadius
      rw [show ((0 : ℕ) : ℝ) + 1 = 1 by norm_num, Real.logb_one]
      rw [show (5 : ℝ) + 0 * 1.5 = 5 by norm_num]
      exact min_eq_left (by norm_num)
    have h1 : (10 : ℝ) ≤ Real.logb 2 (((10000 : ℕ) : ℝ) + 1) := by
      rw [Real.le_logb_iff_rpow_le (by norm_num) (by positivity)]
      rw [show (10 : ℝ) = ((10 : ℕ) : ℝ) by norm_num, Real.rpow_natCast]
      norm_num
    have h2 : getNodeRadius 10000 = 20 := by
      unfold getNodeRadius
      apply min_eq_right
      have h15 : (1.5 : ℝ) = 3 / 2 := by norm_num
      rw [h15]
      generalize hgen : Real.logb 2 (((10000 : ℕ) : ℝ) + 1) = L at h1 ⊢
      linarith
    rw [h0, h2]; norm_num

/-- Witness for `node_radius_monotone_clamped`: monotonicity and the
clamp at the concrete engagement counts `0` and `1`. -/
theorem node_radius_monotone_clamped_witness :
    (0 : ℕ) ≤ 1 ∧ getNodeRadius 0 ≤ getNodeRadius 1
    ∧ 5 ≤ getNodeRadius 1 ∧ getNodeRadius 1 ≤ 20 :=
  ⟨Nat.zero_le 1, node_radius_monotone_clamped.1 0 1 (Nat.zero_le 1),
    (node_radius_monotone_clamped.2.1 1).1, (node_radius_monotone_clamped.2.1 1).2⟩

/-- **C7, counterexample.**  With `viewportWidth = 1000` (so `bandWidth =
2000`), a level-1 quote is pinned at `x = 2000`, while
`midpointX + bandWidth = 2500`: its settled x is `500` away from the
claimed location, far beyond the `bandWidth * 0.15 = 300` tolerance — the
quote does not settle near `midpointX + bandWidth`. -/
theorem reply_band_location_counterexample :
    (setupNode 1000 800 (some "m") ⟨"q", "quote_tweet", JSVal.num 1, 0⟩).fx
        = some 2000
    ∧ ¬ (|(2000 : ℚ) - (1000 / 2 + 1000 * 2)| < (15 / 100) * (1000 * 2)) := by
  constructor
  · norm_num [setupNode, normalizeQtLevel, qtEffLevel, jsOrOne, qtFx]
  · rw [show (2000 : ℚ) - (1000 / 2 + 1000 * 2) = -500 by norm_num, abs_neg,
      abs_of_pos (by norm_num : (0 : ℚ) < 500)]
    norm_num

/-- **C7** (amended).  For every reply node with level `L ≥ 1` (and no
`fx` pin), the horizontal `forceX` target is exactly the x-coordinate of
the level-`L` quote band — `L * bandWidth`, the same value `qtFx`
assigns to a level-`L` quote; that shared coordinate is `bandWidth`
(not `midpointX + bandWidth`) for `L = 1`. -/
theorem reply_target_matches_quote_band (width : ℚ) (n : SimNode)
    (hk : n.kind = "reply") (hfx : n.fx = none) (hL : 1 ≤ n.qt_level) :
    forceXTarget width n = qtFx width n.qt_level := by
  have h0 : (0 : ℚ) < n.qt_level := lt_of_lt_of_le zero_lt_one hL
  have hne : n.qt_level ≠ 0 := ne_of_gt h0
  simp only [forceXTarget, hfx]
  rw [if_pos hk, if_pos ⟨hne, h0⟩, qtFx_eq]
  ring

/-- Witness for `reply_target_matches_quote_band` on a level-2 reply. -/
theorem reply_target_matches_quote_band_witness :
    (("reply" : String) = "reply") ∧ ((none : Option ℚ) = none) ∧ ((1 : ℚ) ≤ 2)
    ∧ forceXTarget 1000 ⟨"r2", "reply", 2, 0, 0, 0, 0, 0, none, none⟩
        = qtFx 1000 2 :=
  ⟨rfl, rfl, by norm_num,
    reply_target_matches_quote_band 1000
      ⟨"r2", "reply", 2, 0, 0, 0, 0, 0, none, none⟩ rfl rfl (by norm_num)⟩

/-- Node preparation pins a node whose `kind` is `main_post` and whose id
the main-post lookup returned at the viewport midpoint. -/
theorem setupNode_pinned (width height : ℚ) (rid : String) (r : RawNode)
    (hk : r.kind = "main_post") (hi : r.id = rid) :
    (setupNode width height (some rid) r).fx = some (width / 2)
    ∧ (setupNode width height (some rid) r).fy = some (height / 2) := by
  have hq : ¬ (r.kind = "quote_tweet") := by rw [hk]; decide
  have hid : some r.id = some rid := by rw [hi]
  simp only [setupNode]
  rw [if_neg hq, if_pos hid, if_pos hid]
  exact ⟨rfl, rfl⟩

/-- A pinned node stays pinned and at its anchor through d3's end-of-tick
position/velocity update. -/
theorem positionUpdate_pinned (decay : ℚ) (n : SimNode) (a b : ℚ)
    (hfx : n.fx = some a) (hfy : n.fy = some b) :
    (positionUpdate decay n).fx = some a ∧ (positionUpdate decay n).fy = some b
    ∧ (positionUpdate decay n).x = a ∧ (positionUpdate decay n).y = b := by
  simp [positionUpdate, hfx, hfy]

/-- One simulation tick — an arbitrary velocity-only force pass followed
by the position update — preserves the pinning invariant. -/
theorem tick_preserves_pinnedInv (a b : ℚ) (rid : String) (decay : ℚ)
    (vel : List SimNode → SimNode → ℚ × ℚ) (ns : List SimNode)
    (h : ∀ m ∈ ns, PinnedInv a b rid m) :
    ∀ n ∈ tick decay vel ns, PinnedInv a b rid n := by
  intro n hn
  simp only [tick, applyForces, List.map_map, List.mem_map, Function.comp] at hn
  obtain ⟨m, hm, rfl⟩ := hn
  intro hk hi
  have hk' : m.kind = "main_post" := hk
  have hi' : m.id = rid := hi
  obtain ⟨hfx, hfy, _, _⟩ := h m hm hk' hi'
  have hfx' : ({ m with vx := (vel ns m).1, vy := (vel ns m).2 } : SimNode).fx
      = some a := hfx
  have hfy' : ({ m with vx := (vel ns m).1, vy := (vel ns m).2 } : SimNode).fy
      = some b := hfy
  obtain ⟨h1, h2, h3, h4⟩ := positionUpdate_pinned decay _ a b hfx' hfy'
  exact ⟨h1, h2, h3, h4⟩

/-- Iterating ticks preserves the pinning invariant. -/
theorem runSim_preserves_pinnedInv (a b : ℚ) (rid : String) (decay : ℚ) :
    ∀ (vels : List (List SimNode → SimNode → ℚ × ℚ)) (ns : List SimNode),
      (∀ m ∈ ns, PinnedInv a b rid m) →
      ∀ n ∈ runSim decay vels ns, PinnedInv a b rid n := by
  intro vels
  induction vels with
  | nil => intro ns h n hn; exact h n hn
  | cons v vs ih =>
    intro ns h
    exact ih (tick decay v ns) (tick_preserves_pinnedInv a b rid decay v ns h)

/-- d3's initialization places a node whose `fx`/`fy` are set exactly at
those coordinates, establishing the pinning invariant. -/
theorem initNodes_pinnedInv (a b : ℚ) (rid : String) (place : ℕ → ℚ × ℚ) :
    ∀ (ns : List SimNode) (i : ℕ),
      (∀ m ∈ ns, m.kind = "main_post" → m.id = rid →
        m.fx = some a ∧ m.fy = some b) →
      ∀ n ∈ initNodes place i ns, PinnedInv a b rid n := by
  intro ns
  induction ns with
  | nil => intro i _ n hn; simp [initNodes] at hn
  | cons m ms ih =>
    intro i h n hn
    rw [initNodes] at hn
    rcases List.mem_cons.mp hn with rfl | hn'
    · intro hk hi
      obtain ⟨hfx, hfy⟩ := h m (List.mem_cons_self m ms) hk hi
      refine ⟨hfx, hfy, ?_, ?_⟩
      · show m.fx.getD (place i).1 = a
        rw [hfx]; rfl
      · show m.fy.getD (place i).2 = b
        rw [hfy]; rfl
    · exact ih (i + 1) (fun m' hm' => h m' (List.mem_cons_of_mem m hm')) n hn'

/-- Initialization keeps a node with each member's `kind` and `id` in the
list. -/
theorem initNodes_mem_of_mem (place : ℕ → ℚ × ℚ) :
    ∀ (ns : List SimNode) (i : ℕ) (m : SimNode), m ∈ ns →
      ∃ n ∈ initNodes place i ns, n.kind = m.kind ∧ n.id = m.id := by
  intro ns
  induction ns with
  | nil => intro i m hm; simp at hm
  | cons m₀ ms ih =>
    intro i m hm
    rw [initNodes]
    rcases List.mem_cons.mp hm with rfl | hm'
    · exact ⟨_, List.mem_cons_self _ _, rfl, rfl⟩
    · obtain ⟨n, hn, hkind, hid⟩ := ih (i + 1) m hm'
      exact ⟨n, List.mem_cons_of_mem _ hn, hkind, hid⟩

/-- A tick keeps a node with each member's `kind` and `id` in the list. -/
theorem tick_mem_of_mem (decay : ℚ) (vel : List SimNode → SimNode → ℚ × ℚ)
    (ns : List SimNode) (m : SimNode) (hm : m ∈ ns) :
    ∃ n ∈ tick decay vel ns, n.kind = m.kind ∧ n.id = m.id := by
  refine ⟨positionUpdate decay
    { m with vx := (vel ns m).1, vy := (vel ns m).2 }, ?_, ?_, ?_⟩
  · simp only [tick, applyForces, List.map_map, List.mem_map, Function.comp]
    exact ⟨m, hm, rfl⟩
  · cases hu : ({ m with vx := (vel ns m).1, vy := (vel ns m).2 } : SimNode).fx
      <;> cases hv : ({ m with vx := (vel ns m).1, vy := (vel ns m).2 } : SimNode).fy
      <;> simp [positionUpdate, hu, hv]
  · cases hu : ({ m with vx := (vel ns m).1, vy := (vel ns m).2 } : SimNode).fx
      <;> cases hv : ({ m with vx := (vel ns m).1, vy := (vel ns m).2 } : SimNode).fy
      <;> simp [positionUpdate, hu, hv]

/-- A full run keeps a node with each member's `kind` and `id`. -/
theorem runSim_mem_of_mem (decay : ℚ) :
    ∀ (vels : List (List SimNode → SimNode → ℚ × ℚ)) (ns : List SimNode)
      (m : SimNode), m ∈ ns →
      ∃ n ∈ runSim decay vels ns, n.kind = m.kind ∧ n.id = m.id := by
  intro vels
  induction vels with
  | nil => intro ns m hm; exact ⟨m, hm, rfl, rfl⟩
  | cons v vs ih =>
    intro ns m hm
    obtain ⟨n₁, hn₁, hk₁, hi₁⟩ := tick_mem_of_mem decay v ns m hm
    obtain ⟨n₂, hn₂, hk₂, hi₂⟩ := ih (tick decay v ns) n₁ hn₁
    exact ⟨n₂, hn₂, hk₂.trans hk₁, hi₂.trans hi₁⟩

/-- **C1.**  For any graph containing a main-post (root) node, after node
preparation, d3 initialization and any number of simulation ticks under
arbitrary velocity-writing forces, every node recognized as that root sits
exactly at the anchor `(viewportWidth / 2, viewportHeight / 2)` — and such
a node exists in the simulation. -/
theorem root_pinned_every_tick (width height decay : ℚ) (raw : List RawNode)
    (rt : RawNode) (place : ℕ → ℚ × ℚ)
    (vels : List (List SimNode → SimNode → ℚ × ℚ))
    (hfind : raw.find? (fun n => n.kind == "main_post") = some rt) :
    (∀ n ∈ runSim decay vels (initNodes place 0 (setupNodes width height raw)),
        n.kind = "main_post" → n.id = rt.id
          → n.x = width / 2 ∧ n.y = height / 2)
    ∧ ∃ n ∈ runSim decay vels (initNodes place 0 (setupNodes width height raw)),
        n.kind = "main_post" ∧ n.id = rt.id := by
  have hmp : mainPostId raw = some rt.id := by
    unfold mainPostId
    rw [hfind]
    rfl
  have hsetup : ∀ m ∈ setupNodes width height raw,
      m.kind = "main_post" → m.id = rt.id
        → m.fx = some (width / 2) ∧ m.fy = some (height / 2) := by
    intro m hm hk hi
    simp only [setupNodes, List.mem_map] at hm
    obtain ⟨r', hr', rfl⟩ := hm
    have hk' : r'.kind = "main_post" := hk
    have hi' : r'.id = rt.id := hi
    rw [hmp]
    exact setupNode_pinned width height rt.id r' hk' hi'
  have hinit := initNodes_pinnedInv (width / 2) (height / 2) rt.id place
    (setupNodes width height raw) 0 hsetup
  have hrun := runSim_preserves_pinnedInv (width / 2) (height / 2) rt.id decay
    vels (initNodes place 0 (setupNodes width height raw)) hinit
  constructor
  · intro n hn hk hi
    obtain ⟨_, _, hx, hy⟩ := hrun n hn hk hi
    exact ⟨hx, hy⟩
  · have hrt : rt ∈ raw := List.mem_of_find?_eq_some hfind
    have hrk : rt.kind = "main_post" := by
      have := List.find?_some hfind
      simpa using this
    have hm0 : setupNode width height (mainPostId raw) rt
        ∈ setupNodes width height raw := List.mem_map_of_mem _ hrt
    obtain ⟨n₁, hn₁, hk₁, hi₁⟩ := initNodes_mem_of_mem place
      (setupNodes width height raw) 0 _ hm0
    obtain ⟨n₂, hn₂, hk₂, hi₂⟩ := runSim_mem_of_mem decay vels _ n₁ hn₁
    refine ⟨n₂, hn₂, ?_, ?_⟩
    · rw [hk₂, hk₁]
      exact hrk
    · rw [hi₂, hi₁]
      rfl

/-- Witness for `root_pinned_every_tick`: a two-node graph (root plus one
reply), one tick of a nonzero constant force, root at `(500, 400)`. -/
theorem root_pinned_every_tick_witness :
    (([⟨"m", "main_post", JSVal.num 0, 0⟩, ⟨"r1", "reply", JSVal.num 0, 2⟩] :
        List RawNode).find? (fun n => n.kind == "main_post")
      = some ⟨"m", "main_post", JSVal.num 0, 0⟩)
    ∧ ∀ n ∈ runSim (3/5) [fun _ _ => (1, 2)]
          (initNodes (fun _ => (7, 9)) 0
            (setupNodes 1000 800
              [⟨"m", "main_post", JSVal.num 0, 0⟩,
               ⟨"r1", "reply", JSVal.num 0, 2⟩])),
        n.kind = "main_post" → n.id = "m" → n.x = 1000 / 2 ∧ n.y = 800 / 2 :=
  ⟨by decide,
    (root_pinned_every_tick 1000 800 (3/5)
      [⟨"m", "main_post", JSVal.num 0, 0⟩, ⟨"r1", "reply", JSVal.num 0, 2⟩]
      ⟨"m", "main_post", JSVal.num 0, 0⟩ (fun _ => (7, 9))
      [fun _ _ => (1, 2)] (by decide)).1⟩

/-- If the remaining call budget `k` reaches `maxTicks` from the current
tick count, some call within the next `k` reports `done = true`. -/
theorem doneWithin_of_budget (p : EngineParams) (decay : ℚ)
    (vel : List SimNode → SimNode → ℚ × ℚ) :
    ∀ (k : ℕ) (s : EngineState), 1 ≤ k → p.maxTicks ≤ s.ticksDone + k →
      doneWithin p decay vel k s = true := by
  intro k
  induction k with
  | zero => intro s h1 _; exact absurd h1 (by norm_num)
  | succ k ih =>
    intro s _ hle
    rw [doneWithin]
    by_cases hdone : p.maxTicks ≤ s.ticksDone + 1
    · have h2 : (engineTick p decay vel s).2 = true := by
        have hd : decide (p.maxTicks ≤ s.ticksDone + 1) = true :=
          decide_eq_true hdone
        simp [engineTick, hd]
      rw [h2, Bool.true_or]
    · have hts : (engineTick p decay vel s).1.ticksDone = s.ticksDone + 1 := rfl
      have hk1 : 1 ≤ k := by omega
      have hle' : p.maxTicks ≤ (engineTick p decay vel s).1.ticksDone + k := by
        rw [hts]; omega
      rw [ih _ hk1 hle', Bool.or_true]

/-- **C9** (spec-modelled).  For every node list — including a single
root node with zero edges — and every force behavior, a fresh engine
driven for `maxTicks` calls reports `done = true` on or before the last
call: `tick()` reports done once the aggregate kinetic energy drops under
`stabilizationThreshold` or once `maxTicks` is reached, whichever comes
first, and the tick counter reaches `maxTicks` at the latest on the last
call. -/
theorem tick_done_by_max_ticks (p : EngineParams) (decay : ℚ)
    (vel : List SimNode → SimNode → ℚ × ℚ) (s : EngineState)
    (h0 : s.ticksDone = 0) (h1 : 1 ≤ p.maxTicks) :
    doneWithin p decay vel p.maxTicks s = true := by
  apply doneWithin_of_budget p decay vel p.maxTicks s h1
  rw [h0]
  omega

/-- Witness for `tick_done_by_max_ticks`: a fresh engine over the
prepared single-root, zero-edge graph with `maxTicks = 300` and zero
forces. -/
theorem tick_done_by_max_ticks_witness :
    ((⟨setupNodes 1000 800 [⟨"m", "main_post", JSVal.num 0, 0⟩], 0⟩ :
        EngineState).ticksDone = 0)
    ∧ (1 ≤ (⟨300, 1/1000⟩ : EngineParams).maxTicks)
    ∧ doneWithin ⟨300, 1/1000⟩ (3/5) (fun _ _ => (0, 0))
        (⟨300, 1/1000⟩ : EngineParams).maxTicks
        ⟨setupNodes 1000 800 [⟨"m", "main_post", JSVal.num 0, 0⟩], 0⟩ = true :=
  ⟨rfl, by norm_num,
    tick_done_by_max_ticks ⟨300, 1/1000⟩ (3/5) (fun _ _ => (0, 0))
      ⟨setupNodes 1000 800 [⟨"m", "main_post", JSVal.num 0, 0⟩], 0⟩
      rfl (by norm_num)⟩

end TwitterGraph
